import Mathlib

/-!
Shallow embedding of the sentient-crypto-insights streaming pipeline.

The embedding follows the source files:
- `src/agent_core.py`: query parsing (`parse_natural_language_query`), the
  cache-aside price/news stores (`get_smart_token_price`, `get_smart_news`).
- `src/main.py`: the event producer `stream_agent_response`.
- `src/sentient_adapter.py`: the SSE frame adapter `_sse_adapter`.
- `src/telegram_bot.py`: the context rewrite `build_contextual_prompt` and
  token-list pagination (`handle_message` token branch, `button_callback`).

External collaborators (HTTP fetchers, the PostgreSQL connection) are modelled
by their success/error result: the producer takes an environment supplying each
fetch call's outcome, and the cache functions take the table contents, the
current time and the upstream API outcome as explicit arguments.  Timestamps
are integers (seconds); the 5-minute and 60-minute freshness windows are 300
and 3600 seconds.  JSON payloads are modelled by the inductive `JVal`.
-/

set_option linter.unusedVariables false

/-- JSON-like payload values, covering the shapes the Python code passes
through `json.dumps`: `None`, booleans, numbers, strings, lists, dicts. -/
inductive JVal where
  | null : JVal
  | bool (b : Bool) : JVal
  | num (q : Rat) : JVal
  | str (s : String) : JVal
  | arr (elems : List JVal) : JVal
  | obj (fields : List (String × JVal)) : JVal

/-- One produced event: the `{"event": name, "data": payload}` object that
`format_event` in `src/main.py` serialises to one NDJSON line. -/
structure Event where
  event : String
  data : JVal

/-- The intent set returned by `parse_natural_language_query`. -/
inductive Intent where
  | GET_WALLET_INFO : Intent
  | LIST_TOKENS : Intent
  | GET_PRICE : Intent
  | GET_NEWS : Intent
  | GET_OVERVIEW : Intent
deriving DecidableEq

/-- The string tag of an intent, as placed in the `intent_recognized` payload. -/
def Intent.tag : Intent → String
  | .GET_WALLET_INFO => "GET_WALLET_INFO"
  | .LIST_TOKENS => "LIST_TOKENS"
  | .GET_PRICE => "GET_PRICE"
  | .GET_NEWS => "GET_NEWS"
  | .GET_OVERVIEW => "GET_OVERVIEW"

/-- One entry of the in-memory token index `FULL_TOKEN_LIST_DETAILED`
(all three fields lowercased at load time by `load_full_token_list`). -/
structure TokenInfo where
  id : String
  name : String
  symbol : String
deriving DecidableEq

/-- Result of `parse_natural_language_query`: the dict
`{"intent": ..., "token_id": ...}`. -/
structure ParsedQuery where
  intent : Intent
  token_id : Option String
deriving DecidableEq

/-- Python `str.lower()`: lowercase every character (inputs here are ASCII). -/
def pyLower (s : String) : String :=
  String.mk (s.toList.map Char.toLower)

/-- Drop leading whitespace of a character list. -/
def dropLeadingWs : List Char → List Char
  | [] => []
  | c :: cs => if c.isWhitespace then dropLeadingWs cs else c :: cs

/-- Python `str.strip()`: drop leading and trailing whitespace. -/
def pyStrip (s : String) : String :=
  String.mk (dropLeadingWs ((dropLeadingWs s.toList.reverse).reverse))

/-- Does `small` occur as a leading block of `big`?  (List-of-characters
substring machinery for Python's `in` operator on strings.) -/
def leadBlock : List Char → List Char → Bool
  | _, [] => true
  | [], _ :: _ => false
  | a :: as, b :: bs => a == b && leadBlock as bs

/-- Does `needle` occur as a contiguous block anywhere in `hay`?  Models
Python's `needle in hay` on strings. -/
def subSearch : List Char → List Char → Bool
  | [], needle => needle.isEmpty
  | h :: t, needle => leadBlock (h :: t) needle || subSearch t needle

/-- Python `needle in hay` for strings. -/
def containsSub (hay needle : String) : Bool :=
  subSearch hay.toList needle.toList

/-- A lowercase hexadecimal digit, the character class `[a-f0-9]` of the
wallet regex in `parse_natural_language_query`. -/
def isHexLower (c : Char) : Bool :=
  c.isDigit || (97 ≤ c.toNat && c.toNat ≤ 102)

/-- Try to match the regex `0x[a-f0-9]{40}` at the head of the character
list, returning the matched text. -/
def matchWalletAt : List Char → Option String
  | '0' :: 'x' :: rest =>
    if 40 ≤ rest.length && (rest.take 40).all isHexLower then
      some (String.mk ('0' :: 'x' :: rest.take 40))
    else none
  | _ => none

/-- Leftmost match of the wallet regex `0x[a-f0-9]{40}` anywhere in the text:
models `re.search(r'0x[a-f0-9]{40}', text_lower)`. -/
def searchWallet : List Char → Option String
  | [] => none
  | c :: rest =>
    match matchWalletAt (c :: rest) with
    | some s => some s
    | none => searchWallet rest

/-- The per-token match test of the lookup loop in
`parse_natural_language_query`: exact equality against id/name/symbol, or
space-padded containment of name/symbol/id in the space-padded text. -/
def tokenMatches (textLower : String) (t : TokenInfo) : Bool :=
  textLower == t.id || textLower == t.name || textLower == t.symbol ||
  containsSub (" " ++ textLower ++ " ") (" " ++ t.name ++ " ") ||
  containsSub (" " ++ textLower ++ " ") (" " ++ t.symbol ++ " ") ||
  containsSub (" " ++ textLower ++ " ") (" " ++ t.id ++ " ")

/-- The token lookup loop: first list entry matching wins, returning its id. -/
def findToken (textLower : String) : List TokenInfo → Option String
  | [] => none
  | t :: ts => if tokenMatches textLower t then some t.id else findToken textLower ts

/-- Embedding of `parse_natural_language_query` (src/agent_core.py): wallet
regex first, then the token-listing keywords, then the price/news keyword
classification and the token index lookup. -/
def parse_natural_language_query (tokens : List TokenInfo) (text : String) : ParsedQuery :=
  let textLower := pyStrip (pyLower text)
  match searchWallet textLower.toList with
  | some address => ⟨Intent.GET_WALLET_INFO, some address⟩
  | none =>
    if containsSub textLower "list" || (containsSub textLower "show" && containsSub textLower "token") then
      ⟨Intent.LIST_TOKENS, none⟩
    else
      let intent :=
        if containsSub textLower "price" || containsSub textLower "how much" || containsSub textLower "cost" then
          Intent.GET_PRICE
        else if containsSub textLower "news" || containsSub textLower "headlines" || containsSub textLower "latest" then
          Intent.GET_NEWS
        else Intent.GET_OVERVIEW
      ⟨intent, findToken textLower tokens⟩

/-- Python truthiness of the optional token string: `if not token` in
`stream_agent_response` treats both `None` and `""` as falsy. -/
def truthy : Option String → Bool
  | none => false
  | some s => s ≠ ""

/-- JSON encoding of an optional string (`None` becomes `null`). -/
def jOptStr : Option String → JVal
  | none => JVal.null
  | some s => JVal.str s

/-- The abbreviated address `address[:6] + "..." + address[-4:]` used in the
wallet status message. -/
def shortAddr (a : String) : String :=
  String.mk (a.toList.take 6) ++ "..." ++ String.mk (a.toList.drop (a.length - 4))

/-- The terminal event `format_event("done", "Stream finished.")`. -/
def doneEvent : Event :=
  ⟨"done", JVal.str "Stream finished."⟩

/-- Python `"error" in d` for a result dict. -/
def hasErrorKey (d : List (String × JVal)) : Bool :=
  d.any (fun kv => kv.1 == "error")

/-- The message of the unresolved-subject error event in
`stream_agent_response`. -/
def noSubjectMsg : String :=
  "Sorry, I couldn" ++ String.mk [Char.ofNat 39] ++ "t identify a cryptocurrency in your question."

/-- Outcomes of the external calls `stream_agent_response` can make, exactly
as each returns to the producer: `get_wallet_info` and the smart price/news
functions always return a dict (error dicts carry an `"error"` key), and
`get_token_list` returns a list. -/
structure Env where
  wallet : String → List (String × JVal)
  tokenList : List JVal
  price : String → List (String × JVal)
  news : String → List (String × JVal)

/-- A record of which external calls the producer made. -/
inductive ExtCall where
  | walletFetch (address : String) : ExtCall
  | tokenListFetch : ExtCall
  | priceCall (token : String) : ExtCall
  | newsCall (token : String) : ExtCall
deriving DecidableEq

/-- The body of `stream_agent_response` (src/main.py) after the parse: the
wallet short-circuit, the token-list short-circuit, the missing-token error
short-circuit, then the conditional price and news sub-steps and the final
done event.  Returns the emitted events together with the external calls
made. -/
def run_with_parsed (env : Env) (parsed : ParsedQuery) : List Event × List ExtCall :=
  let intentEv : Event :=
    ⟨"intent_recognized", JVal.obj [("intent", JVal.str parsed.intent.tag), ("token", jOptStr parsed.token_id)]⟩
  if parsed.intent = Intent.GET_WALLET_INFO then
    let address := parsed.token_id.getD ""
    ([intentEv,
      ⟨"status_update", JVal.str ("Fetching info for wallet " ++ shortAddr address)⟩,
      ⟨"wallet_info_result", JVal.obj (env.wallet address)⟩,
      doneEvent],
     [ExtCall.walletFetch address])
  else if parsed.intent = Intent.LIST_TOKENS then
    ([intentEv,
      ⟨"status_update", JVal.str "Fetching full token list..."⟩,
      ⟨"token_list_result", JVal.obj [("tokens", JVal.arr env.tokenList)]⟩,
      doneEvent],
     [ExtCall.tokenListFetch])
  else if truthy parsed.token_id = false then
    ([intentEv,
      ⟨"error", JVal.obj [("message", JVal.str noSubjectMsg)]⟩,
      doneEvent],
     [])
  else
    let t := parsed.token_id.getD ""
    let priceEvents : List Event :=
      if parsed.intent = Intent.GET_PRICE ∨ parsed.intent = Intent.GET_OVERVIEW then
        [⟨"status_update", JVal.str ("Fetching price for " ++ t ++ "...")⟩,
         if hasErrorKey (env.price t) then ⟨"error", JVal.obj (env.price t)⟩
         else ⟨"price_result", JVal.obj (env.price t)⟩]
      else []
    let priceCalls : List ExtCall :=
      if parsed.intent = Intent.GET_PRICE ∨ parsed.intent = Intent.GET_OVERVIEW then [ExtCall.priceCall t]
      else []
    let newsEvents : List Event :=
      if parsed.intent = Intent.GET_NEWS ∨ parsed.intent = Intent.GET_OVERVIEW then
        [⟨"status_update", JVal.str ("Fetching news for " ++ t ++ "...")⟩,
         if hasErrorKey (env.news t) then ⟨"error", JVal.obj (env.news t)⟩
         else ⟨"news_result", JVal.obj (env.news t)⟩]
      else []
    let newsCalls : List ExtCall :=
      if parsed.intent = Intent.GET_NEWS ∨ parsed.intent = Intent.GET_OVERVIEW then [ExtCall.newsCall t]
      else []
    (intentEv :: (priceEvents ++ (newsEvents ++ [doneEvent])), priceCalls ++ newsCalls)

/-- Embedding of `stream_agent_response` (src/main.py): parse the question,
then run the branch structure; the pair holds the event sequence and the
external calls made. -/
def stream_agent_run (tokens : List TokenInfo) (env : Env) (question : String) :
    List Event × List ExtCall :=
  run_with_parsed env (parse_natural_language_query tokens question)

/-- The event sequence `stream_agent_response` yields for one question. -/
def stream_agent_response (tokens : List TokenInfo) (env : Env) (question : String) : List Event :=
  (stream_agent_run tokens env question).1

/-- One row of the `price_history` table (src/creates_tables.py): `price` is
NOT NULL, `market_cap` and `volume_24h` are nullable, `fetched_at` defaults
to the insertion time. -/
structure PriceRow where
  token_id : String
  price : Rat
  market_cap : Option Rat
  volume_24h : Option Rat
  fetched_at : Int
deriving DecidableEq

/-- One row of the `news_cache` table. -/
structure NewsRow where
  query : String
  articles : JVal
  fetched_at : Int

/-- The cache read of `get_smart_token_price`: rows of `price_history` with
this `token_id` and `fetched_at >= now - 5 minutes`; `ORDER BY fetched_at
DESC LIMIT 1` keeps a row with the greatest timestamp. -/
def price_lookup (db : List PriceRow) (key : String) (now : Int) : Option PriceRow :=
  (db.filter (fun r => r.token_id == key && decide (now - 300 ≤ r.fetched_at))).argmax
    (fun r => r.fetched_at)

/-- The cache read of `get_smart_news`: rows of `news_cache` with this `query`
and `fetched_at >= now - 60 minutes`; `ORDER BY fetched_at DESC LIMIT 1`
keeps a row with the greatest timestamp. -/
def news_lookup (db : List NewsRow) (key : String) (now : Int) : Option NewsRow :=
  (db.filter (fun r => r.query == key && decide (now - 3600 ≤ r.fetched_at))).argmax
    (fun r => r.fetched_at)

/-- The normalized success payload of `get_token_price_from_api`: each field is
`price_data.get(...)`, hence possibly `None`. -/
structure ApiPrice where
  price : Option Rat
  market_cap : Option Rat
  volume_24h : Option Rat
deriving DecidableEq

/-- Outcome of one upstream price fetch, per the fetcher boundary contract:
either the normalized payload or an error dict with the given message. -/
inductive PriceApiResult where
  | ok (p : ApiPrice) : PriceApiResult
  | err (msg : String) : PriceApiResult
deriving DecidableEq

/-- JSON encoding of an optional number (`None` becomes `null`). -/
def jOptRat : Option Rat → JVal
  | none => JVal.null
  | some q => JVal.num q

/-- Result of one `get_smart_token_price` call: the returned dict, the table
contents afterwards, and whether the upstream API was invoked. -/
structure SmartPriceResult where
  result : List (String × JVal)
  db : List PriceRow
  apiCalled : Bool

/-- Embedding of `get_smart_token_price` (src/agent_core.py).  On a fresh
cached row, the three columns are converted with `float(...)`; a NULL
`market_cap` or `volume_24h` makes that conversion raise, which the
surrounding `except` turns into the internal-database-error dict.  On a miss
the API outcome is consulted: an error dict passes through; a success payload
is inserted (a NULL price violates the NOT NULL column, again surfacing the
internal-database-error dict) and returned as-is. -/
def get_smart_token_price (db : List PriceRow) (now : Int) (api : PriceApiResult)
    (token_id : String) : SmartPriceResult :=
  match price_lookup db token_id now with
  | some row =>
    match row.market_cap, row.volume_24h with
    | some mc, some vol =>
      ⟨[("price", JVal.num row.price), ("market_cap", JVal.num mc), ("volume_24h", JVal.num vol)],
       db, false⟩
    | _, _ =>
      ⟨[("error", JVal.str "An internal database error occurred.")], db, false⟩
  | none =>
    match api with
    | PriceApiResult.err msg => ⟨[("error", JVal.str msg)], db, true⟩
    | PriceApiResult.ok p =>
      match p.price with
      | none => ⟨[("error", JVal.str "An internal database error occurred.")], db, true⟩
      | some pr =>
        ⟨[("price", jOptRat p.price), ("market_cap", jOptRat p.market_cap),
          ("volume_24h", jOptRat p.volume_24h)],
         db ++ [⟨token_id, pr, p.market_cap, p.volume_24h, now⟩], true⟩

/-- Outcome of one upstream news fetch: the normalized article list or an
error dict with the given message. -/
inductive NewsApiResult where
  | ok (articles : JVal) : NewsApiResult
  | err (msg : String) : NewsApiResult

/-- Result of one `get_smart_news` call. -/
structure SmartNewsResult where
  result : List (String × JVal)
  db : List NewsRow
  apiCalled : Bool

/-- Embedding of `get_smart_news` (src/agent_core.py): cache read within the
60-minute window, else fetch, insert and return. -/
def get_smart_news (db : List NewsRow) (now : Int) (api : NewsApiResult)
    (query : String) : SmartNewsResult :=
  match news_lookup db query now with
  | some row => ⟨[("articles", row.articles)], db, false⟩
  | none =>
    match api with
    | NewsApiResult.err msg => ⟨[("error", JVal.str msg)], db, true⟩
    | NewsApiResult.ok articles =>
      ⟨[("articles", articles)], db ++ [⟨query, articles, now⟩], true⟩

/-- One NDJSON line as seen by `_sse_adapter`: either a well-formed
`{"event": ..., "data": ...}` line (what `json.loads` recovers from any
producer line) or an unparsable raw string. -/
inductive NdLine where
  | json (e : Event) : NdLine
  | raw (s : String) : NdLine

/-- The producer's NDJSON output as adapter input: every line is well-formed. -/
def toLines (es : List Event) : List NdLine :=
  es.map NdLine.json

/-- One SSE frame pair: the `event:` line's name and the `data:` line's
JSON payload. -/
structure SseFrame where
  event : String
  data : JVal

/-- The `if not line: continue` test of `_sse_adapter`: only an empty raw
line is skipped. -/
def lineNonEmpty : NdLine → Bool
  | NdLine.json _ => true
  | NdLine.raw s => s ≠ ""

/-- Per-line frame construction of `_sse_adapter`: a parsed line keeps its
event name (a falsy name becomes `"message"`) and payload; an unparsable
line becomes a synthetic `LOG` frame carrying the stripped text. -/
def frameOfLine : NdLine → SseFrame
  | NdLine.json e => ⟨if e.event = "" then "message" else e.event, e.data⟩
  | NdLine.raw s => ⟨"LOG", JVal.obj [("message", JVal.str (pyStrip s))]⟩

/-- Embedding of `_sse_adapter` (src/sentient_adapter.py): skip empty lines,
emit one frame pair per remaining line, then append the sentinel
`event: done / data: {}` frame pair. -/
def sse_adapter (lines : List NdLine) : List SseFrame :=
  (lines.filter lineNonEmpty).map frameOfLine ++ [⟨"done", JVal.obj []⟩]

/-- The remembered state `build_contextual_prompt` consults: the session's
`last_token` field. -/
structure BotSession where
  last_token : Option String

/-- The fixed trigger-phrase set `TRIGGER_WORDS` of src/telegram_bot.py. -/
def TRIGGER_WORDS : List String :=
  ["price", "news", "overview", "now", "price now", "news now", "check price", "check news"]

/-- Embedding of `build_contextual_prompt` (src/telegram_bot.py): strip the
raw text; if a last token is remembered (truthy) and the lowercased text is a
trigger phrase, prepend the last token; otherwise pass the text through. -/
def build_contextual_prompt (raw : String) (session : BotSession) : String :=
  let msg := pyStrip raw
  match session.last_token with
  | some t =>
    if t ≠ "" then
      let lower := pyLower msg
      if TRIGGER_WORDS.contains lower then t ++ " " ++ msg
      else if ["price", "news", "overview", "now"].contains lower then t ++ " " ++ msg
      else msg
    else msg
  | none => msg

/-- One token entry as rendered by the bot's pagination. -/
structure TgToken where
  text : String
deriving DecidableEq

/-- The `token_list_result` branch of `handle_message` (src/telegram_bot.py):
the first rendered page is `tokens[:20]`, and a "Show More" control with
cursor 20 is attached when more than 20 tokens exist. -/
def initial_token_page (tokens : List TgToken) : List TgToken × Option Nat :=
  (tokens.take 20, if 20 < tokens.length then some 20 else none)

/-- `button_callback` (src/telegram_bot.py) for a "Show More" selection at
cursor `next_start`: `end_index = next_start + 20`, the rendered slice is
`tokens[next_start:end_index]`, and a further control with cursor `end_index`
is attached only when `end_index < len(tokens)`. -/
def button_page (tokens : List TgToken) (next_start : Nat) : List TgToken × Option Nat :=
  let end_index := next_start + 20
  ((tokens.drop next_start).take 20,
   if end_index < tokens.length then some end_index else none)

/-- The hardcoded fallback token index of `load_full_token_list`
(src/agent_core.py). -/
def fallbackTokens : List TokenInfo :=
  [⟨"bitcoin", "bitcoin", "btc"⟩, ⟨"ethereum", "ethereum", "eth"⟩,
   ⟨"pi-network", "pi network", "pi"⟩]

/-- An environment in which every fetch succeeds with an empty payload. -/
def envEmpty : Env :=
  ⟨fun _ => [], [], fun _ => [], fun _ => []⟩

/-- An environment in which the wallet fetch fails: `get_wallet_info` returns
its missing-key error dict. -/
def envWalletErr : Env :=
  ⟨fun _ => [("error", JVal.str "Etherscan API key not found.")], [],
   fun _ => [], fun _ => []⟩

/-- An environment in which the price fetch fails and the news fetch
succeeds. -/
def envPriceErr : Env :=
  ⟨fun _ => [], [],
   fun _ => [("error", JVal.str "API request failed: timeout")],
   fun _ => [("articles", JVal.arr [])]⟩

/-- A 42-character wallet address matching the shape `0x[a-f0-9]{40}`. -/
def sampleAddress : String :=
  "0xaaaaaaaaaaaaaaaaaaaaaaaaaaaaaaaaaaaaaaaa"

/-- A token list of length 45 with pairwise distinct entries, for the
pagination scenario. -/
def tokens45 : List TgToken :=
  (List.range 45).map (fun i => ⟨Nat.repr i⟩)

/-- C1: for every input question, the event sequence produced by
`stream_agent_response` begins with an `intent_recognized` event, ends with a
`done` event, and contains exactly one `done`, for every resolved intent and
every combination of sub-step outcomes supplied by the environment. -/
theorem c1_stream_first_intent_last_unique_done (tokens : List TokenInfo) (env : Env) (q : String) :
    (stream_agent_response tokens env q).head?.map Event.event = some "intent_recognized" ∧
    (stream_agent_response tokens env q).getLast?.map Event.event = some "done" ∧
    (stream_agent_response tokens env q).countP (fun e => e.event == "done") = 1 := by
  unfold stream_agent_response stream_agent_run run_with_parsed
  generalize parse_natural_language_query tokens q = P
  obtain ⟨i, tk⟩ := P
  rcases i <;> cases htk : truthy tk <;>
    simp [doneEvent, List.countP_cons, List.getLast?_cons, htk] <;>
    (repeat' split) <;> simp_all [List.countP_cons]

/-- C3 (amended): for every query whose resolved intent is the wallet lookup
(the parser only produces it with an address-shaped subject), the producer
emits `status_update`, makes exactly the wallet fetch call, emits
`wallet_info_result` carrying the fetch result dict — on fetch success and on
fetch failure alike, with no separate `error` event — then `done`, and stops
without any price or news event or call. -/
theorem c3_wallet_short_circuit (tokens : List TokenInfo) (env : Env) (q a : String)
    (hp : parse_natural_language_query tokens q = ⟨Intent.GET_WALLET_INFO, some a⟩) :
    stream_agent_run tokens env q =
      ([⟨"intent_recognized", JVal.obj [("intent", JVal.str "GET_WALLET_INFO"), ("token", JVal.str a)]⟩,
        ⟨"status_update", JVal.str ("Fetching info for wallet " ++ shortAddr a)⟩,
        ⟨"wallet_info_result", JVal.obj (env.wallet a)⟩,
        doneEvent],
       [ExtCall.walletFetch a]) := by
  unfold stream_agent_run run_with_parsed
  rw [hp]
  simp [Intent.tag, jOptStr]

/-- Witness for the wallet short-circuit, at a concrete address query in an
environment whose wallet fetch fails. -/
theorem c3_wallet_short_circuit_witness :
    stream_agent_run fallbackTokens envWalletErr sampleAddress =
      ([⟨"intent_recognized", JVal.obj [("intent", JVal.str "GET_WALLET_INFO"), ("token", JVal.str sampleAddress)]⟩,
        ⟨"status_update", JVal.str ("Fetching info for wallet " ++ shortAddr sampleAddress)⟩,
        ⟨"wallet_info_result", JVal.obj (envWalletErr.wallet sampleAddress)⟩,
        doneEvent],
       [ExtCall.walletFetch sampleAddress]) :=
  c3_wallet_short_circuit fallbackTokens envWalletErr sampleAddress sampleAddress (by rfl)

/-- C3 counterexample: at a concrete wallet query whose fetch fails (the
fetcher returns an error dict), the produced sequence contains no `error`
event at all — the failure is emitted as `wallet_info_result`, contradicting
the claim that a fetch failure yields an `ERROR` event. -/
theorem c3_wallet_error_counterexample :
    hasErrorKey (envWalletErr.wallet sampleAddress) = true ∧
    (stream_agent_response fallbackTokens envWalletErr sampleAddress).map Event.event =
      ["intent_recognized", "status_update", "wallet_info_result", "done"] :=
  ⟨rfl, rfl⟩

/-- C4: for every query resolving to the overview intent with a truthy
subject, the produced sequence is exactly: the intent event, the price status
and the price sub-step event (`price_result`, or `error` when the price fetch
failed), then the news status and the news sub-step event (`news_result` or
`error`), then `done` — the price sub-step event precedes the news sub-step
event, a price failure degrades to a single error event without preventing
the news sub-step, and the sequence still ends with `done`. -/
theorem c4_overview_price_before_news (tokens : List TokenInfo) (env : Env) (q t : String)
    (hp : parse_natural_language_query tokens q = ⟨Intent.GET_OVERVIEW, some t⟩)
    (ht : t ≠ "") :
    stream_agent_response tokens env q =
      [⟨"intent_recognized", JVal.obj [("intent", JVal.str "GET_OVERVIEW"), ("token", JVal.str t)]⟩,
       ⟨"status_update", JVal.str ("Fetching price for " ++ t ++ "...")⟩,
       (if hasErrorKey (env.price t) then ⟨"error", JVal.obj (env.price t)⟩
        else ⟨"price_result", JVal.obj (env.price t)⟩),
       ⟨"status_update", JVal.str ("Fetching news for " ++ t ++ "...")⟩,
       (if hasErrorKey (env.news t) then ⟨"error", JVal.obj (env.news t)⟩
        else ⟨"news_result", JVal.obj (env.news t)⟩),
       doneEvent] := by
  unfold stream_agent_response stream_agent_run run_with_parsed
  rw [hp]
  simp [truthy, ht, Intent.tag, jOptStr]

/-- Witness for the overview ordering, at the concrete query "bitcoin" in an
environment whose price fetch fails and whose news fetch succeeds. -/
theorem c4_overview_price_before_news_witness :
    stream_agent_response fallbackTokens envPriceErr "bitcoin" =
      [⟨"intent_recognized", JVal.obj [("intent", JVal.str "GET_OVERVIEW"), ("token", JVal.str "bitcoin")]⟩,
       ⟨"status_update", JVal.str ("Fetching price for " ++ "bitcoin" ++ "...")⟩,
       (if hasErrorKey (envPriceErr.price "bitcoin") then ⟨"error", JVal.obj (envPriceErr.price "bitcoin")⟩
        else ⟨"price_result", JVal.obj (envPriceErr.price "bitcoin")⟩),
       ⟨"status_update", JVal.str ("Fetching news for " ++ "bitcoin" ++ "...")⟩,
       (if hasErrorKey (envPriceErr.news "bitcoin") then ⟨"error", JVal.obj (envPriceErr.news "bitcoin")⟩
        else ⟨"news_result", JVal.obj (envPriceErr.news "bitcoin")⟩),
       doneEvent] :=
  c4_overview_price_before_news fallbackTokens envPriceErr "bitcoin" "bitcoin" (by rfl) (by decide)

/-- C6 (amended): for every query whose resolved intent requires a subject
(price, news or overview) and whose subject is unresolved or empty, the
producer emits a single `error` event whose message is the literal apology
"Sorry, I couldn't identify a cryptocurrency in your question." — not
"no subject identified" — then `done`, and stops having made no fetcher or
cache call. -/
theorem c6_no_subject_error (tokens : List TokenInfo) (env : Env) (q : String)
    (i : Intent) (tk : Option String)
    (hp : parse_natural_language_query tokens q = ⟨i, tk⟩)
    (hi : i = Intent.GET_PRICE ∨ i = Intent.GET_NEWS ∨ i = Intent.GET_OVERVIEW)
    (htk : truthy tk = false) :
    stream_agent_run tokens env q =
      ([⟨"intent_recognized", JVal.obj [("intent", JVal.str i.tag), ("token", jOptStr tk)]⟩,
        ⟨"error", JVal.obj [("message", JVal.str noSubjectMsg)]⟩,
        doneEvent],
       []) := by
  unfold stream_agent_run run_with_parsed
  rw [hp]
  rcases hi with rfl | rfl | rfl <;> simp [htk]

/-- Witness for the unresolved-subject short-circuit at the concrete query
"price now" against the fallback token index. -/
theorem c6_no_subject_error_witness :
    stream_agent_run fallbackTokens envEmpty "price now" =
      ([⟨"intent_recognized", JVal.obj [("intent", JVal.str Intent.GET_PRICE.tag), ("token", jOptStr none)]⟩,
        ⟨"error", JVal.obj [("message", JVal.str noSubjectMsg)]⟩,
        doneEvent],
       []) :=
  c6_no_subject_error fallbackTokens envEmpty "price now" Intent.GET_PRICE none (by rfl)
    (Or.inl rfl) (by rfl)

/-- C6 counterexample: at the concrete query "price now" with no matching
token, the emitted error message is the apology sentence, which differs from
the message "no subject identified" stated by the claim. -/
theorem c6_message_counterexample :
    (stream_agent_response fallbackTokens envEmpty "price now")[1]? =
      some ⟨"error", JVal.obj [("message", JVal.str noSubjectMsg)]⟩ ∧
    noSubjectMsg ≠ "no subject identified" := by
  refine ⟨rfl, by decide⟩

/-- Every event the producer emits carries a nonempty event name, so the
adapter's falsy-name fallback to "message" never fires on producer output. -/
theorem stream_event_names_nonempty (tokens : List TokenInfo) (env : Env) (q : String) :
    ∀ e ∈ stream_agent_response tokens env q, e.event ≠ "" := by
  unfold stream_agent_response stream_agent_run run_with_parsed
  generalize parse_natural_language_query tokens q = P
  obtain ⟨i, tk⟩ := P
  rcases i <;> cases htk : truthy tk <;>
    simp [doneEvent, htk] <;> (repeat' split) <;> simp_all

/-- C5 (amended): applied to the producer's NDJSON line sequence, the SSE
adapter emits exactly one `event:`/`data:` frame pair per input event, in the
order received, with each event's name and payload carried over unaltered —
and then appends exactly one synthetic sentinel frame pair
(`event: done`, `data: {}`) that corresponds to no input event. -/
theorem c5_sse_adapter_frames (tokens : List TokenInfo) (env : Env) (q : String) :
    sse_adapter (toLines (stream_agent_response tokens env q)) =
      (stream_agent_response tokens env q).map (fun e => ⟨e.event, e.data⟩) ++
        [⟨"done", JVal.obj []⟩] := by
  have hne := stream_event_names_nonempty tokens env q
  unfold sse_adapter toLines
  have h1 : (List.map NdLine.json (stream_agent_response tokens env q)).filter lineNonEmpty =
      List.map NdLine.json (stream_agent_response tokens env q) := by
    rw [List.filter_eq_self]
    intro a ha
    rcases List.mem_map.mp ha with ⟨e, he, rfl⟩
    rfl
  rw [h1, List.map_map]
  congr 1
  apply List.map_congr_left
  intro e he
  simp only [Function.comp, frameOfLine]
  rw [if_neg (hne e he)]

/-- C5 counterexample: on the concrete produced sequence for "bitcoin" the
adapter emits seven frame pairs for six input events — one more than one per
input event — and the extra terminal pair (`done`, `{}`) corresponds to no
input event, contradicting "without adding ... events". -/
theorem c5_sentinel_counterexample :
    (stream_agent_response fallbackTokens envEmpty "bitcoin").length = 6 ∧
    (sse_adapter (toLines (stream_agent_response fallbackTokens envEmpty "bitcoin"))).length = 7 ∧
    (sse_adapter (toLines (stream_agent_response fallbackTokens envEmpty "bitcoin"))).getLast? =
      some ⟨"done", JVal.obj []⟩ :=
  ⟨rfl, rfl, rfl⟩

/-- Specification of `ORDER BY f DESC LIMIT 1` over a filtered list: the
result is non-miss iff some element passes the filter, and any returned
element passes the filter and has maximal `f` among passing elements. -/
theorem argmax_filter_spec {α : Type} (f : α → Int) (p : α → Bool) (l : List α) :
    (((l.filter p).argmax f ≠ none) ↔ ∃ r ∈ l, p r = true) ∧
    (∀ r, (l.filter p).argmax f = some r →
      r ∈ l ∧ p r = true ∧ ∀ x ∈ l, p x = true → f x ≤ f r) := by
  constructor
  · rw [Ne, List.argmax_eq_none]
    constructor
    · intro h
      rcases List.exists_mem_of_ne_nil _ h with ⟨r, hr⟩
      exact ⟨r, (List.mem_filter.mp hr).1, (List.mem_filter.mp hr).2⟩
    · rintro ⟨r, hrl, hrp⟩ hnil
      exact List.not_mem_nil r (hnil ▸ List.mem_filter.mpr ⟨hrl, hrp⟩)
  · intro r hr
    have hmem := List.argmax_mem (Option.mem_def.mpr hr)
    refine ⟨(List.mem_filter.mp hmem).1, (List.mem_filter.mp hmem).2, ?_⟩
    intro x hx hpx
    exact List.le_of_mem_argmax (List.mem_filter.mpr ⟨hx, hpx⟩) (Option.mem_def.mpr hr)

/-- C2: for both cache categories — price with the 5-minute window and news
with the 60-minute window — and every key, the lookup returns a non-miss
result iff some stored row for that key has `fetched_at` within the
category's freshness window of `now`; any returned row is itself such a row
and carries the greatest `fetched_at` among them; stale and absent rows alike
yield a miss. -/
theorem c2_cache_freshness (pdb : List PriceRow) (ndb : List NewsRow) (key : String) (now : Int) :
    ((price_lookup pdb key now ≠ none) ↔
      ∃ r ∈ pdb, r.token_id = key ∧ now - r.fetched_at ≤ 300) ∧
    (∀ r, price_lookup pdb key now = some r →
      r ∈ pdb ∧ r.token_id = key ∧ now - r.fetched_at ≤ 300 ∧
        ∀ x ∈ pdb, x.token_id = key → now - x.fetched_at ≤ 300 → x.fetched_at ≤ r.fetched_at) ∧
    ((news_lookup ndb key now ≠ none) ↔
      ∃ r ∈ ndb, r.query = key ∧ now - r.fetched_at ≤ 3600) ∧
    (∀ r, news_lookup ndb key now = some r →
      r ∈ ndb ∧ r.query = key ∧ now - r.fetched_at ≤ 3600 ∧
        ∀ x ∈ ndb, x.query = key → now - x.fetched_at ≤ 3600 → x.fetched_at ≤ r.fetched_at) := by
  have hp := argmax_filter_spec (fun r : PriceRow => r.fetched_at)
    (fun r => r.token_id == key && decide (now - 300 ≤ r.fetched_at)) pdb
  have hn := argmax_filter_spec (fun r : NewsRow => r.fetched_at)
    (fun r => r.query == key && decide (now - 3600 ≤ r.fetched_at)) ndb
  refine ⟨?_, ?_, ?_, ?_⟩
  · rw [price_lookup, hp.1]
    constructor
    · rintro ⟨r, hrl, hrp⟩
      simp only [Bool.and_eq_true, beq_iff_eq, decide_eq_true_eq] at hrp
      exact ⟨r, hrl, hrp.1, by omega⟩
    · rintro ⟨r, hrl, hk, hw⟩
      refine ⟨r, hrl, ?_⟩
      simp only [Bool.and_eq_true, beq_iff_eq, decide_eq_true_eq]
      exact ⟨hk, by omega⟩
  · intro r hr
    obtain ⟨hmem, hpred, hmax⟩ := hp.2 r hr
    simp only [Bool.and_eq_true, beq_iff_eq, decide_eq_true_eq] at hpred
    refine ⟨hmem, hpred.1, by omega, ?_⟩
    intro x hx hxk hxw
    refine hmax x hx ?_
    simp only [Bool.and_eq_true, beq_iff_eq, decide_eq_true_eq]
    exact ⟨hxk, by omega⟩
  · rw [news_lookup, hn.1]
    constructor
    · rintro ⟨r, hrl, hrp⟩
      simp only [Bool.and_eq_true, beq_iff_eq, decide_eq_true_eq] at hrp
      exact ⟨r, hrl, hrp.1, by omega⟩
    · rintro ⟨r, hrl, hk, hw⟩
      refine ⟨r, hrl, ?_⟩
      simp only [Bool.and_eq_true, beq_iff_eq, decide_eq_true_eq]
      exact ⟨hk, by omega⟩
  · intro r hr
    obtain ⟨hmem, hpred, hmax⟩ := hn.2 r hr
    simp only [Bool.and_eq_true, beq_iff_eq, decide_eq_true_eq] at hpred
    refine ⟨hmem, hpred.1, by omega, ?_⟩
    intro x hx hxk hxw
    refine hmax x hx ?_
    simp only [Bool.and_eq_true, beq_iff_eq, decide_eq_true_eq]
    exact ⟨hxk, by omega⟩

/-- A concrete fresh price row for the freshness witness. -/
def sampleFreshRow : PriceRow :=
  ⟨"bitcoin", 100, some 1, some 2, 90⟩

/-- Witness for the freshness invariant: a row fetched 10 seconds ago is
within the 5-minute window, so the lookup is a non-miss. -/
theorem c2_cache_freshness_witness :
    price_lookup [sampleFreshRow] "bitcoin" 100 ≠ none :=
  (c2_cache_freshness [sampleFreshRow] [] "bitcoin" 100).1.mpr
    ⟨sampleFreshRow, by simp, rfl, by decide⟩

/-- C9 (amended): when a price query misses the cache at `now1` and the
upstream fetch succeeds with non-null price, market_cap and volume_24h,
populating the cache, then a second identical query at any `now2` within the
5-minute window does not consult the upstream fetcher (whatever its outcome
would be) and returns a result dict identical to the first query's. -/
theorem c9_cache_hit_identical (db : List PriceRow) (now1 now2 : Int) (t : String)
    (p : ApiPrice) (api2 : PriceApiResult) (pr mc vol : Rat)
    (hmiss : price_lookup db t now1 = none)
    (hpr : p.price = some pr) (hmc : p.market_cap = some mc) (hvol : p.volume_24h = some vol)
    (h12 : now1 ≤ now2) (hwin : now2 - now1 ≤ 300) :
    (get_smart_token_price db now1 (PriceApiResult.ok p) t).apiCalled = true ∧
    (get_smart_token_price (get_smart_token_price db now1 (PriceApiResult.ok p) t).db
        now2 api2 t).apiCalled = false ∧
    (get_smart_token_price (get_smart_token_price db now1 (PriceApiResult.ok p) t).db
        now2 api2 t).result =
      (get_smart_token_price db now1 (PriceApiResult.ok p) t).result := by
  have hfirst : get_smart_token_price db now1 (PriceApiResult.ok p) t =
      ⟨[("price", JVal.num pr), ("market_cap", JVal.num mc), ("volume_24h", JVal.num vol)],
       db ++ [⟨t, pr, some mc, some vol, now1⟩], true⟩ := by
    rw [get_smart_token_price, hmiss]
    rw [hpr, hmc, hvol]
    rfl
  have hnil1 : db.filter (fun r => r.token_id == t && decide (now1 - 300 ≤ r.fetched_at)) = [] :=
    List.argmax_eq_none.mp hmiss
  have hnil2 : db.filter (fun r => r.token_id == t && decide (now2 - 300 ≤ r.fetched_at)) = [] := by
    rw [List.filter_eq_nil_iff] at hnil1 ⊢
    intro a ha
    have h1 := hnil1 a ha
    simp only [Bool.and_eq_true, beq_iff_eq, decide_eq_true_eq] at h1 ⊢
    intro h2
    exact h1 ⟨h2.1, by omega⟩
  have hrow : price_lookup (db ++ [(⟨t, pr, some mc, some vol, now1⟩ : PriceRow)]) t now2 =
      some ⟨t, pr, some mc, some vol, now1⟩ := by
    rw [price_lookup, List.filter_append, hnil2, List.nil_append, List.filter_cons, if_pos]
    · rfl
    · simp only [Bool.and_eq_true, beq_iff_eq, decide_eq_true_eq]
      exact ⟨trivial, by omega⟩
  have hsecond : get_smart_token_price (db ++ [(⟨t, pr, some mc, some vol, now1⟩ : PriceRow)])
      now2 api2 t =
      ⟨[("price", JVal.num pr), ("market_cap", JVal.num mc), ("volume_24h", JVal.num vol)],
       db ++ [⟨t, pr, some mc, some vol, now1⟩], false⟩ := by
    rw [get_smart_token_price.eq_def, hrow]
  refine ⟨?_, ?_, ?_⟩
  · rw [hfirst]
  · simp only [hfirst, hsecond]
  · simp only [hfirst, hsecond]

/-- Witness for the cache round trip: an empty table, a successful fetch with
all three fields present, and a second query 60 seconds later. -/
theorem c9_cache_hit_identical_witness :
    (get_smart_token_price [] 0 (PriceApiResult.ok ⟨some 1, some 2, some 3⟩) "bitcoin").apiCalled = true ∧
    (get_smart_token_price (get_smart_token_price [] 0
        (PriceApiResult.ok ⟨some 1, some 2, some 3⟩) "bitcoin").db
        60 (PriceApiResult.err "down") "bitcoin").apiCalled = false ∧
    (get_smart_token_price (get_smart_token_price [] 0
        (PriceApiResult.ok ⟨some 1, some 2, some 3⟩) "bitcoin").db
        60 (PriceApiResult.err "down") "bitcoin").result =
      (get_smart_token_price [] 0 (PriceApiResult.ok ⟨some 1, some 2, some 3⟩) "bitcoin").result :=
  c9_cache_hit_identical [] 0 60 "bitcoin" ⟨some 1, some 2, some 3⟩ (PriceApiResult.err "down")
    1 2 3 (by rfl) rfl rfl rfl (by decide) (by decide)

/-- C9 counterexample: with an upstream payload whose market_cap is null, the
first query returns an error-free price payload and populates the cache, and
the second query 60 seconds later skips the fetcher but returns the
internal-database-error dict — not a payload identical to the first. -/
theorem c9_null_field_counterexample :
    hasErrorKey (get_smart_token_price [] 0
      (PriceApiResult.ok ⟨some 1, none, some 2⟩) "bitcoin").result = false ∧
    (get_smart_token_price (get_smart_token_price [] 0
        (PriceApiResult.ok ⟨some 1, none, some 2⟩) "bitcoin").db
        60 (PriceApiResult.err "down") "bitcoin").apiCalled = false ∧
    (get_smart_token_price (get_smart_token_price [] 0
        (PriceApiResult.ok ⟨some 1, none, some 2⟩) "bitcoin").db
        60 (PriceApiResult.err "down") "bitcoin").result =
      [("error", JVal.str "An internal database error occurred.")] :=
  ⟨rfl, rfl, rfl⟩

/-- C10: when the cache lookup returns a fresh row whose market_cap or
volume_24h is null (as an insert after a provider response missing that field
leaves it), `get_smart_token_price` returns the storage-error dict
{"error": "An internal database error occurred."} instead of a price payload,
makes no upstream call, and performs no storage write. -/
theorem c10_null_column_cache_hit (db : List PriceRow) (now : Int) (t : String)
    (api : PriceApiResult) (r : PriceRow)
    (hr : price_lookup db t now = some r)
    (hnull : r.market_cap = none ∨ r.volume_24h = none) :
    (get_smart_token_price db now api t).result =
      [("error", JVal.str "An internal database error occurred.")] ∧
    (get_smart_token_price db now api t).apiCalled = false ∧
    (get_smart_token_price db now api t).db = db := by
  obtain ⟨tid, pr0, mc0, vol0, fa⟩ := r
  rcases hnull with h | h
  · replace h : mc0 = none := h
    subst h
    rw [get_smart_token_price.eq_def, hr]
    exact ⟨rfl, rfl, rfl⟩
  · replace h : vol0 = none := h
    subst h
    rcases mc0 with _ | mc <;>
      (rw [get_smart_token_price.eq_def, hr]; exact ⟨rfl, rfl, rfl⟩)

/-- The table left behind by an insert whose provider payload had no
market_cap: its single row has a null market_cap column. -/
def nullMcDb : List PriceRow :=
  (get_smart_token_price [] 0 (PriceApiResult.ok ⟨some 1, none, some 2⟩) "bitcoin").db

/-- Witness for the null-column cache hit, against the table produced by such
an insert, 60 seconds later. -/
theorem c10_null_column_cache_hit_witness :
    (get_smart_token_price nullMcDb 60 (PriceApiResult.err "down") "bitcoin").result =
      [("error", JVal.str "An internal database error occurred.")] ∧
    (get_smart_token_price nullMcDb 60 (PriceApiResult.err "down") "bitcoin").apiCalled = false ∧
    (get_smart_token_price nullMcDb 60 (PriceApiResult.err "down") "bitcoin").db = nullMcDb :=
  c10_null_column_cache_hit nullMcDb 60 "bitcoin" (PriceApiResult.err "down")
    ⟨"bitcoin", 1, none, some 2, 0⟩ (by rfl) (Or.inl rfl)

/-- C7: with a remembered last subject "bitcoin" the vague input "price now"
is rewritten to "bitcoin price now" before reaching the producer; with no
remembered subject it is passed through unchanged, and for it the producer's
sequence (here against the fallback token index, which matches nothing in
"price now") is the unresolved-subject error followed by `done`, for every
environment. -/
theorem c7_context_rewrite (env : Env) :
    build_contextual_prompt "price now" ⟨some "bitcoin"⟩ = "bitcoin price now" ∧
    build_contextual_prompt "price now" ⟨none⟩ = "price now" ∧
    stream_agent_response fallbackTokens env "price now" =
      [⟨"intent_recognized", JVal.obj [("intent", JVal.str "GET_PRICE"), ("token", JVal.null)]⟩,
       ⟨"error", JVal.obj [("message", JVal.str noSubjectMsg)]⟩,
       doneEvent] :=
  ⟨rfl, rfl, rfl⟩

/-- C8 (amended): for a cached token list of length 45 and page size 20, the
initial token-list render shows the slice [0:20] and attaches a "show more"
control with cursor 20; the first "show more" selection shows [20:40] and
attaches a control with cursor 40 (next_start = current_end and current_end =
next_start + 20), and the second selection shows [40:45], the page carrying
no further "show more" control — the [0:20] page comes from the initial
render, so exactly two "show more" selections are reachable. -/
theorem c8_pagination (tokens : List TgToken) (h : tokens.length = 45) :
    initial_token_page tokens = (tokens.take 20, some 20) ∧
    button_page tokens 20 = ((tokens.drop 20).take 20, some 40) ∧
    button_page tokens 40 = ((tokens.drop 40).take 20, none) := by
  unfold initial_token_page button_page
  simp [h]

/-- Witness for the pagination chain at a concrete 45-token list. -/
theorem c8_pagination_witness :
    initial_token_page tokens45 = (tokens45.take 20, some 20) ∧
    button_page tokens45 20 = ((tokens45.drop 20).take 20, some 40) ∧
    button_page tokens45 40 = ((tokens45.drop 40).take 20, none) :=
  c8_pagination tokens45 (by rfl)

/-- C8 counterexample: from the initial render of a concrete 45-token list
the first reachable "show more" selection has cursor 20 and shows
tokens[20:40], which is not tokens[0:20], and the page showing tokens[40:45]
carries no control — so three successive "show more" selections yielding
[0:20], [20:40] and [40:45] do not occur. -/
theorem c8_three_selections_counterexample :
    (initial_token_page tokens45).2 = some 20 ∧
    (button_page tokens45 20).1 ≠ tokens45.take 20 ∧
    (button_page tokens45 40).2 = none := by
  refine ⟨rfl, by decide, rfl⟩
